import Mathlib

/-!
Shallow embedding of `beancount_ethereum/downloader.py`.

Conventions of the embedding:
* Python `Decimal` values are modelled by their rational value `ℚ`; the
  default decimal context (28 significant digits, half-even rounding) is
  modelled explicitly by `decDivPow10` and `decMul` below.
* Raw provider strings that the code feeds to `int(...)` or `Decimal(...)`
  are modelled post-parse as `ℕ` / `Int` (the claims never exercise
  malformed numeric strings for these fields); `tokenDecimal`, which the
  code compares to the empty string before parsing, is kept as an
  `Option String` so that an absent key and the empty string are both
  representable.
* A fallible Python call is an `Except String` value whose error text is
  the message of the exception that propagates.
* The HTTP exchange of one request is a `Transport` value: either the
  `GET`/`raise_for_status` step raises an `HTTPError`, or reading the body
  (`response.json()`) raises some other exception, or a parsed JSON
  envelope is obtained.  JSON envelopes are modelled as well-formed
  records with an integral `status` field.
-/

namespace BeancountEthereum

/-! ### Module-level constants (downloader.py lines 10-17) -/

def DEFAULT_CURRENCY : String := "ETH"

def MINER : String := "0xffffffffffffffffffffffffffffffffffffffff"

def WEI : ℕ := 10 ^ 18

def NO_TRANSACTIONS : List String :=
  ["No transactions found",
   "No internal transactions found",
   "No token transfers found"]

/-! ### Value model of Python `Decimal` arithmetic

The code divides exact integer `Decimal`s by powers of ten and multiplies
two exact integer `Decimal`s.  Under the default context these operations
round the result to `28` significant digits, half-even.  Only the rational
value of the result matters to the records, so the model computes that
value. -/

def DECIMAL_PREC : ℕ := 28

/-- Python `str.lower()` (the addresses involved are ASCII hex strings,
for which per-character lowering is the exact semantics). -/
def lowerStr (s : String) : String := String.mk (s.data.map Char.toLower)

/-- Parse a non-empty all-digit string as a natural number (the shape of
token-decimal counts accepted by `Decimal(...)` followed by an integral
power; other strings make the Python conversion raise). -/
def strToNat? (s : String) : Option ℕ :=
  if s.data ≠ [] ∧ s.data.all Char.isDigit then
    some (s.data.foldl (fun n c => 10 * n + (c.toNat - 48)) 0)
  else none

/-- Number of decimal digits of `n` (`0` for `n = 0`), computed with
structural fuel (`n` itself is always enough fuel). -/
def digitsAux : ℕ → ℕ → ℕ
  | 0, _ => 0
  | fuel + 1, n => if n = 0 then 0 else digitsAux fuel (n / 10) + 1

def numDigits (n : ℕ) : ℕ := digitsAux n n

/-- Write `n = a * 10 ^ t` with `a` not divisible by ten (for `n ≠ 0`),
returning `(a, t)`; fuel-driven like `digitsAux`. -/
def stripZerosAux : ℕ → ℕ → ℕ × ℕ
  | 0, n => (n, 0)
  | fuel + 1, n =>
    if n ≠ 0 ∧ n % 10 = 0 then
      let p := stripZerosAux fuel (n / 10)
      (p.1, p.2 + 1)
    else (n, 0)

def stripZeros (n : ℕ) : ℕ × ℕ := stripZerosAux n n

/-- Significant decimal digits of `n`: digits of `n` with trailing zeros
removed.  A `Decimal` operation on integer values is exact exactly when
the result fits in `DECIMAL_PREC` significant digits. -/
def sigDigits (n : ℕ) : ℕ := numDigits (stripZeros n).1

/-- Round `a / pow` to the nearest integer, ties to even. -/
def roundHalfEven (a pow : ℕ) : ℕ :=
  let q := a / pow
  let r := a % pow
  if 2 * r > pow ∨ (2 * r = pow ∧ q % 2 = 1) then q + 1 else q

/-- Round the integer `n` to `DECIMAL_PREC` significant digits, half-even
(the identity when `n` already fits).  This is what the default decimal
context does to the exact result of an arithmetic operation whose value is
the integer `n`. -/
def decRound (n : ℕ) : ℕ :=
  if sigDigits n ≤ DECIMAL_PREC then n
  else
    let a := (stripZeros n).1
    let t := (stripZeros n).2
    let s := numDigits a - DECIMAL_PREC
    roundHalfEven a (10 ^ s) * 10 ^ s * 10 ^ t

/-- Rational value of Python `Decimal(v) / (10 ** d)` under the default
context: exact when `v` has at most `28` significant digits, otherwise the
quotient is rounded half-even to `28` significant digits (the divisor
being a power of ten, the rounded coefficient is `decRound v`). -/
def decDivPow10 (v d : ℕ) : ℚ :=
  (decRound v : ℚ) / 10 ^ d

/-- Value of Python `Decimal(x) * Decimal(y)` under the default context
(the exact product, rounded half-even to `28` significant digits when it
does not fit). -/
def decMul (x y : ℕ) : ℕ :=
  decRound (x * y)

/-! ### Record shapes (spec section 3) -/

/-- One normalized transaction record.  The Python dict keys `from` / `to`
are Lean keywords resp. kept verbatim; they appear here as `fromAddr` /
`toAddr`.  `contract` is `none` when the dict has no `contract` key. -/
structure TransactionRecord where
  tx_id : String
  time : Int
  fromAddr : String
  toAddr : String
  currency : String
  value : ℚ
  contract : Option String := none
  deriving Repr, DecidableEq

/-- A JSON scalar as delivered by the wallet provider in the `quote` and
`quote_rate` fields (numbers are modelled by their rational value). -/
inductive JsonValue where
  | null
  | num (q : ℚ)
  | str (s : String)
  deriving Repr, DecidableEq

/-- One normalized balance record.  `address`, `contract` and `rate` are
`none` when the corresponding dict key is absent. -/
structure BalanceRecord where
  time : Int
  address : Option String := none
  currency : String
  contract : Option String := none
  balance : ℚ
  rate : Option JsonValue := none
  deriving Repr, DecidableEq

/-! ### Block explorer client (downloader.py lines 20-130) -/

/-- Parsed JSON body of a block-explorer response
(`{"status": ..., "message": ..., "result": ...}`). -/
structure ApiEnvelope (α : Type) where
  status : Int
  message : String
  result : α
  deriving Repr, DecidableEq

/-- Outcome of the HTTP exchange performed inside the `try` block of
`_make_api_request` (and of `get_asset_balances`):
`httpFailure` is `raise_for_status()` raising `HTTPError`;
`bodyFailure` is `response.json()` raising some other exception;
`response` is a successfully parsed body. -/
inductive Transport (α : Type) where
  | httpFailure (text : String)
  | bodyFailure (text : String)
  | response (env : ApiEnvelope α)
  deriving Repr, DecidableEq

/-- A Python exception as relevant to the `except` clauses of the code. -/
inductive PyError where
  | httpError (text : String)
  | runtimeError (text : String)
  | otherError (text : String)
  deriving Repr, DecidableEq

/-- The message `str(err)` of an exception. -/
def PyError.text : PyError → String
  | .httpError m => m
  | .runtimeError m => m
  | .otherError m => m

/-- Mutable state of `BlockExplorerApi` that the request primitive
updates (`self._last_request_timestamp`, a float, modelled as `ℚ`). -/
structure ExplorerState where
  lastRequestTimestamp : ℚ
  deriving Repr, DecidableEq

/-- Body of the `try` block of `_make_api_request` (lines 45-53), before
exception handling.  The second component records whether the
timestamp-update statement (line 49) was executed: it runs as soon as the
body parses, BEFORE the provider-status check on line 50. -/
def tryBody : Transport α → Except PyError α × Bool
  | .httpFailure m => (.error (.httpError m), false)
  | .bodyFailure m => (.error (.otherError m), false)
  | .response env =>
    (if env.status = 1 ∨ env.message ∈ NO_TRANSACTIONS then .ok env.result
     else .error (.runtimeError ("API Error: " ++ env.message)),
     true)

/-- The two `except` clauses (lines 54-57): an `HTTPError` is wrapped as
an HTTP error; every other exception - including the `RuntimeError`
raised on line 53 inside the same `try` block - falls through to the
generic handler and is wrapped again. -/
def handleErrors : Except PyError α → Except String α
  | .ok x => .ok x
  | .error (.httpError m) => .error ("HTTP error occurred: " ++ m)
  | .error e => .error ("An error occurred: " ++ e.text)

/-- Result value of `_make_api_request` for a given transport outcome. -/
def apiResult (t : Transport α) : Except String α :=
  handleErrors (tryBody t).1

/-- State of the client after `_make_api_request`: the last-request
timestamp becomes `now` (the value of `time.time()` at line 49) whenever
that line was reached, i.e. for every parsed response, successful or not. -/
def requestState (st : ExplorerState) (now : ℚ) (t : Transport α) : ExplorerState :=
  if (tryBody t).2 then { lastRequestTimestamp := now } else st

/-- `BlockExplorerApi._make_api_request` (lines 31-57): result plus new
client state.  The pre-request pacing sleep does not affect either. -/
def make_api_request (st : ExplorerState) (now : ℚ) (t : Transport α) :
    Except String α × ExplorerState :=
  (apiResult t, requestState st now t)

/-- Order-preserving concatenation of per-item outputs (the semantics of
the `for` loops that append a small list of records per response item). -/
def concatMap (f : α → List β) : List α → List β
  | [] => []
  | x :: xs => f x ++ concatMap f xs

/-- One `txlist` response item, fields as consumed by the code
(`from` appears as `fromAddr`, `to` as `toAddr`; `timeStamp`, `value`,
`gasUsed`, `gasPrice`, `isError` are modelled post-parse). -/
structure TxItem where
  hash : String
  timeStamp : Int
  fromAddr : String
  toAddr : String
  value : ℕ
  gasUsed : ℕ
  gasPrice : ℕ
  isError : Int
  deriving Repr, DecidableEq

/-- Records emitted for one `txlist` item by the loop body of
`get_normal_transactions` (lines 61-83): a value-transfer record when the
error flag is unset, then a synthesized fee record when the sender of the item
equals the queried address case-insensitively. -/
def normalRecordsForItem (base address : String) (item : TxItem) :
    List TransactionRecord :=
  (if item.isError = 0 then
    [{ tx_id := item.hash, time := item.timeStamp, fromAddr := item.fromAddr,
       toAddr := item.toAddr, currency := base,
       value := decDivPow10 item.value 18 }]
   else []) ++
  (if lowerStr item.fromAddr = lowerStr address then
    [{ tx_id := item.hash, time := item.timeStamp, fromAddr := item.fromAddr,
       toAddr := MINER, currency := base,
       value := decDivPow10 (decMul item.gasUsed item.gasPrice) 18 }]
   else [])

/-- Result component of `get_normal_transactions` (lines 59-84). -/
def normalResult (base address : String) (t : Transport (List TxItem)) :
    Except String (List TransactionRecord) :=
  (apiResult t).map (concatMap (normalRecordsForItem base address))

/-- `BlockExplorerApi.get_normal_transactions`, with the client state
threaded through the underlying request. -/
def get_normal_transactions (base address : String) (st : ExplorerState)
    (now : ℚ) (t : Transport (List TxItem)) :
    Except String (List TransactionRecord) × ExplorerState :=
  (normalResult base address t, requestState st now t)

/-- One `txlistinternal` response item.  Blockscout delivers the
transaction id under `transactionHash` instead of `hash`, so the `hash`
key may be absent (`none`); the code always reads `transactionHash` in
that case, so it is modelled as present. -/
structure InternalTxItem where
  hash : Option String
  transactionHash : String
  timeStamp : Int
  fromAddr : String
  toAddr : String
  value : ℕ
  deriving Repr, DecidableEq

/-- Record emitted for one `txlistinternal` item (lines 88-99); emitted
unconditionally, one per item. -/
def internalRecordForItem (base : String) (item : InternalTxItem) :
    TransactionRecord :=
  { tx_id := match item.hash with
             | some h => h
             | none => item.transactionHash,
    time := item.timeStamp, fromAddr := item.fromAddr, toAddr := item.toAddr,
    currency := base, value := decDivPow10 item.value 18 }

/-- Result component of `get_internal_transactions` (lines 86-100). -/
def internalResult (base : String) (t : Transport (List InternalTxItem)) :
    Except String (List TransactionRecord) :=
  (apiResult t).map (List.map (internalRecordForItem base))

/-- `BlockExplorerApi.get_internal_transactions`. -/
def get_internal_transactions (base address : String) (st : ExplorerState)
    (now : ℚ) (t : Transport (List InternalTxItem)) :
    Except String (List TransactionRecord) × ExplorerState :=
  (internalResult base t, requestState st now t)

/-- One `tokentx` response item.  `tokenDecimal` is the raw string under
that key, or `none` when the key is absent. -/
structure TokenTxItem where
  hash : String
  timeStamp : Int
  fromAddr : String
  toAddr : String
  value : ℕ
  tokenSymbol : String
  tokenDecimal : Option String
  contractAddress : String
  deriving Repr, DecidableEq

/-- Loop body of `get_erc20_transfers` for one item (lines 104-118):
reading the tokenDecimal entry raises a KeyError when the key is absent;
the empty string is skipped; otherwise the string is fed to `Decimal`
(non-numeric strings raise, modelled via `String.toNat?`). -/
def erc20RecordsForItem (item : TokenTxItem) :
    Except String (List TransactionRecord) :=
  match item.tokenDecimal with
  | none => .error "KeyError: tokenDecimal"
  | some s =>
    if s = "" then .ok []
    else
      match strToNat? s with
      | none => .error ("InvalidOperation: Decimal " ++ s)
      | some d =>
        .ok [{ tx_id := item.hash, time := item.timeStamp,
               fromAddr := item.fromAddr, toAddr := item.toAddr,
               currency := item.tokenSymbol,
               value := decDivPow10 item.value d,
               contract := some item.contractAddress }]

/-- Run the loop bodies in order, stopping at the first raised
exception. -/
def concatMapE (f : α → Except String (List β)) :
    List α → Except String (List β)
  | [] => .ok []
  | x :: xs =>
    match f x with
    | .error e => .error e
    | .ok ys =>
      match concatMapE f xs with
      | .error e => .error e
      | .ok zs => .ok (ys ++ zs)

/-- Result component of `get_erc20_transfers` (lines 102-119). -/
def erc20Result (t : Transport (List TokenTxItem)) :
    Except String (List TransactionRecord) :=
  match apiResult t with
  | .error e => .error e
  | .ok items => concatMapE erc20RecordsForItem items

/-- `BlockExplorerApi.get_erc20_transfers`. -/
def get_erc20_transfers (address : String) (st : ExplorerState) (now : ℚ)
    (t : Transport (List TokenTxItem)) :
    Except String (List TransactionRecord) × ExplorerState :=
  (erc20Result t, requestState st now t)

/-- Result component of `get_base_currency_balances` (lines 121-130); the
`balance` action returns one scalar raw balance (modelled post-parse as
`ℕ`), and `wallClock` is `int(datetime.datetime.now().timestamp())`. -/
def baseCurrencyBalancesResult (base address : String) (wallClock : Int)
    (t : Transport ℕ) : Except String (List BalanceRecord) :=
  (apiResult t).map (fun result =>
    [{ time := wallClock, address := some (lowerStr address), currency := base,
       balance := decDivPow10 result 18 }])

/-- `BlockExplorerApi.get_base_currency_balances`. -/
def get_base_currency_balances (base address : String) (st : ExplorerState)
    (now : ℚ) (wallClock : Int) (t : Transport ℕ) :
    Except String (List BalanceRecord) × ExplorerState :=
  (baseCurrencyBalancesResult base address wallClock t, requestState st now t)

/-! ### Wallet client (downloader.py lines 132-168) -/

/-- One item of the `data.items` list of the wallet provider, fields as
consumed by the code (`balance` is the raw integer string post-parse,
`contract_decimals` is a JSON integer). -/
structure WalletItem where
  quote : JsonValue
  quote_rate : JsonValue
  contract_ticker_symbol : String
  contract_address : String
  balance : ℕ
  contract_decimals : ℕ
  deriving Repr, DecidableEq

/-- The `data` object of a wallet response. -/
structure WalletData where
  updated_at : String
  items : List WalletItem
  deriving Repr, DecidableEq

/-- Parsed JSON body of a wallet response. -/
structure WalletEnvelope where
  error : Bool
  error_message : String
  data : WalletData
  deriving Repr, DecidableEq

/-- Outcome of the HTTP exchange of `get_asset_balances` (lines 141-143),
analogous to `Transport`. -/
inductive WalletTransport where
  | httpFailure (text : String)
  | bodyFailure (text : String)
  | response (env : WalletEnvelope)
  deriving Repr, DecidableEq

/-- Body of the `try` block of `get_asset_balances` (lines 140-146): the
provider-reported error flag raises a `RuntimeError` inside the `try`,
which the generic handler of the same function re-wraps. -/
def walletTryBody : WalletTransport → Except PyError WalletData
  | .httpFailure m => .error (.httpError m)
  | .bodyFailure m => .error (.otherError m)
  | .response env =>
    if env.error then .error (.runtimeError ("API Error: " ++ env.error_message))
    else .ok env.data

/-! #### Timestamp parsing (lines 152-155)

`datetime.datetime.strptime(time_str_trimmed, "%Y-%m-%dT%H:%M:%S.%f")`
followed by `replace(tzinfo=utc)` and `int(dt.timestamp())`.  The format
is modelled for the canonical zero-padded shape (which is what truncating
an ISO-8601 `updated_at` to 23 characters yields); `%f` accepts one to
six digits.  The regex of `strptime` plus the `datetime` constructor jointly
enforce the calendar range checks reproduced below. -/

def isLeapYear (y : ℕ) : Bool :=
  y % 4 = 0 && (y % 100 != 0 || y % 400 = 0)

def daysInMonth (y m : ℕ) : ℕ :=
  if m = 2 then (if isLeapYear y then 29 else 28)
  else if m = 4 ∨ m = 6 ∨ m = 9 ∨ m = 11 then 30
  else 31

/-- Days from 1970-01-01 to the civil date `y-m-d` (proleptic Gregorian,
valid for years from 1; the standard era-based computation). -/
def daysFromCivil (y m d : ℕ) : Int :=
  let yy : ℕ := y - (if m ≤ 2 then 1 else 0)
  let era : ℕ := yy / 400
  let yoe : ℕ := yy - era * 400
  let mp : ℕ := (m + 9) % 12
  let doy : ℕ := (153 * mp + 2) / 5 + (d - 1)
  let doe : ℕ := yoe * 365 + yoe / 4 - yoe / 100 + doy
  (era : Int) * 146097 + (doe : Int) - 719468

def digitVal (c : Char) : ℕ := c.toNat - 48

def twoDigits (a b : Char) : ℕ := 10 * digitVal a + digitVal b

/-- UTC Unix timestamp of a string in the shape
`YYYY-MM-DDTHH:MM:SS.f{1,6}`; `none` when `strptime` or the `datetime`
constructor would raise.  Microseconds are discarded by the final
`int(...)` truncation. -/
def parseUpdatedAt (s : String) : Option Int :=
  match s.toList with
  | y1 :: y2 :: y3 :: y4 :: sep1 :: mo1 :: mo2 :: sep2 :: dd1 :: dd2 :: sepT ::
      h1 :: h2 :: sep3 :: mi1 :: mi2 :: sep4 :: ss1 :: ss2 :: sepDot :: frac =>
    if y1.isDigit ∧ y2.isDigit ∧ y3.isDigit ∧ y4.isDigit ∧
       mo1.isDigit ∧ mo2.isDigit ∧ dd1.isDigit ∧ dd2.isDigit ∧
       h1.isDigit ∧ h2.isDigit ∧ mi1.isDigit ∧ mi2.isDigit ∧
       ss1.isDigit ∧ ss2.isDigit ∧
       sep1 = '-' ∧ sep2 = '-' ∧ sepT = 'T' ∧ sep3 = ':' ∧ sep4 = ':' ∧
       sepDot = '.' ∧ 1 ≤ frac.length ∧ frac.length ≤ 6 ∧
       frac.all Char.isDigit then
      let y := 1000 * digitVal y1 + 100 * digitVal y2 + 10 * digitVal y3 +
               digitVal y4
      let mo := twoDigits mo1 mo2
      let dd := twoDigits dd1 dd2
      let hh := twoDigits h1 h2
      let mi := twoDigits mi1 mi2
      let ss := twoDigits ss1 ss2
      if 1 ≤ y ∧ 1 ≤ mo ∧ mo ≤ 12 ∧ 1 ≤ dd ∧ dd ≤ daysInMonth y mo ∧
         hh ≤ 23 ∧ mi ≤ 59 ∧ ss ≤ 59 then
        some (daysFromCivil y mo dd * 86400 + hh * 3600 + mi * 60 + ss)
      else none
    else none
  | _ => none

/-- Is the `quote` field of an item a positive `int`/`float`
(line 158: an isinstance check against int and float, and a positivity test)? -/
def validQuote : JsonValue → Bool
  | .num q => decide (0 < q)
  | _ => false

/-- Balance record built for one surviving wallet item (lines 160-167). -/
def assetRecord (timestamp : Int) (address : String) (i : WalletItem) :
    BalanceRecord :=
  { time := timestamp, address := some (lowerStr address),
    currency := i.contract_ticker_symbol, contract := some i.contract_address,
    balance := decDivPow10 i.balance i.contract_decimals,
    rate := some i.quote_rate }

/-- `WalletApi.get_asset_balances` (lines 137-168).  The timestamp parse
happens outside the `try` block, so its failure propagates without the
generic wrapping. -/
def get_asset_balances (address : String) (t : WalletTransport) :
    Except String (List BalanceRecord) :=
  match handleErrors (walletTryBody t) with
  | .error e => .error e
  | .ok data =>
    match parseUpdatedAt (data.updated_at.take 23) with
    | none => .error "ValueError: time data does not match format"
    | some ts =>
      .ok ((data.items.filter (fun i => validQuote i.quote)).map
            (assetRecord ts address))

/-! ### Orchestrator (downloader.py lines 170-196) -/

/-- The configuration keys consumed by `download` that influence the
modelled behaviour: `name`, the key list of `account_map` (in insertion
order), and the optional `base_currency` (the URL, key and delay entries
only affect transport and pacing). -/
structure Config where
  name : String
  addresses : List String
  base_currency : Option String

/-- The provider responses one address receives for its four requests. -/
structure AddressEnv where
  txlist : Transport (List TxItem)
  txlistinternal : Transport (List InternalTxItem)
  tokentx : Transport (List TokenTxItem)
  wallet : WalletTransport

def exceptOk : Except ε α → Bool
  | .ok _ => true
  | .error _ => false

/-- The four fetches the loop body of `download` performs for one address
(lines 183-186), in source order, stopping at the first raised
exception.  The pacing state never influences these results (see
`make_api_request`), so it is elided here. -/
def fetchAddress (base address : String) (aenv : AddressEnv) :
    Except String (List TransactionRecord × List BalanceRecord) :=
  match normalResult base address aenv.txlist with
  | .error e => .error e
  | .ok t1 =>
    match internalResult base aenv.txlistinternal with
    | .error e => .error e
    | .ok t2 =>
      match erc20Result aenv.tokentx with
      | .error e => .error e
      | .ok t3 =>
        match get_asset_balances address aenv.wallet with
        | .error e => .error e
        | .ok bs => .ok (t1 ++ t2 ++ t3, bs)

/-- The `for address in addresses` loop of `download` (lines 182-186),
accumulating transactions and balances. -/
def downloadLoop (base : String) (env : String → AddressEnv) :
    List String → List TransactionRecord → List BalanceRecord →
    Except String (List TransactionRecord × List BalanceRecord)
  | [], txs, bals => .ok (txs, bals)
  | a :: rest, txs, bals =>
    match fetchAddress base a (env a) with
    | .error e => .error e
    | .ok p => downloadLoop base env rest (txs ++ p.1) (bals ++ p.2)

/-- Content of one written output file. -/
inductive FileContent where
  | transactions (records : List TransactionRecord)
  | balances (records : List BalanceRecord)
  deriving Repr, DecidableEq

/-- `download` (lines 170-196): run the per-address loop, then - only
when every fetch succeeded - write the two output files (lines 187-195).
The returned list holds the files written, in write order; an exception
escaping the loop reaches the caller before any file is opened. -/
def download (cfg : Config) (env : String → AddressEnv) :
    Except String Unit × List (String × FileContent) :=
  match downloadLoop (cfg.base_currency.getD DEFAULT_CURRENCY) env
      cfg.addresses [] [] with
  | .error e => (.error e, [])
  | .ok p =>
    (.ok (),
     [(cfg.name ++ ".json", FileContent.transactions p.1),
      (cfg.name ++ "-balances.json", FileContent.balances p.2)])

/-! ### Concrete sample inputs used to instantiate the theorems -/

def exState : ExplorerState := { lastRequestTimestamp := 0 }

/-- A successful outgoing transaction of the queried address `0xAB`. -/
def exTxOk : TxItem :=
  { hash := "0xaaa", timeStamp := 1700000000, fromAddr := "0xAb",
    toAddr := "0xCd", value := 1500000000000000000, gasUsed := 21000,
    gasPrice := 1000000000, isError := 0 }

/-- A failed (reverted) outgoing transaction of the queried address. -/
def exTxFailed : TxItem :=
  { exTxOk with hash := "0xbbb", isError := 1 }

/-- A failed transaction sent by some other address. -/
def exTxOther : TxItem :=
  { exTxOk with hash := "0xccc", fromAddr := "0xEe", isError := 1 }

def exInternalWithHash : InternalTxItem :=
  { hash := some "0xh1", transactionHash := "0xt1", timeStamp := 1700000001,
    fromAddr := "0xAb", toAddr := "0xCd", value := 42000000000000000000 }

def exInternalNoHash : InternalTxItem :=
  { exInternalWithHash with hash := none }

def exToken : TokenTxItem :=
  { hash := "0xddd", timeStamp := 1700000002, fromAddr := "0xAb",
    toAddr := "0xCd", value := 5000000, tokenSymbol := "TOK",
    tokenDecimal := some "6", contractAddress := "0xCo" }

/-- A non-fungible transfer as Blockscout reports it: empty decimals. -/
def exTokenEmptyDec : TokenTxItem :=
  { exToken with hash := "0xfff", tokenDecimal := some "" }

/-- A `tokentx` item whose `tokenDecimal` key is absent altogether. -/
def exTokenNoDec : TokenTxItem :=
  { exToken with hash := "0xeee", tokenDecimal := none }

def exWalletItemGood : WalletItem :=
  { quote := JsonValue.num 2, quote_rate := JsonValue.num 2,
    contract_ticker_symbol := "TOK", contract_address := "0xCo",
    balance := 5000000, contract_decimals := 6 }

def exWalletItemNull : WalletItem := { exWalletItemGood with quote := JsonValue.null }

def exWalletItemZero : WalletItem := { exWalletItemGood with quote := JsonValue.num 0 }

def exWalletItemStr : WalletItem := { exWalletItemGood with quote := JsonValue.str "5" }

def exWalletEnv : WalletEnvelope :=
  { error := false, error_message := "",
    data := { updated_at := "2023-06-01T12:34:56.789123999Z",
              items := [exWalletItemGood, exWalletItemNull, exWalletItemZero,
                        exWalletItemStr] } }

def exConfig : Config :=
  { name := "test", addresses := ["0xAb"], base_currency := none }

/-- Per-address responses in which every request succeeds. -/
def exAddressEnvOk : AddressEnv :=
  { txlist := Transport.response ⟨1, "OK", [exTxOk]⟩,
    txlistinternal := Transport.response ⟨1, "OK", [exInternalWithHash]⟩,
    tokentx := Transport.response ⟨1, "OK", [exToken]⟩,
    wallet := WalletTransport.response exWalletEnv }

/-- Per-address responses in which the very first request fails at the
transport level. -/
def exAddressEnvFail : AddressEnv :=
  { exAddressEnvOk with txlist := Transport.httpFailure "connection refused" }

end BeancountEthereum

namespace BeancountEthereum

/-! ### Helper lemmas -/

theorem decDivPow10_exact (v d : ℕ) (h : sigDigits v ≤ DECIMAL_PREC) :
    decDivPow10 v d = (v : ℚ) / 10 ^ d := by
  rw [decDivPow10, decRound, if_pos h]

theorem decMul_exact (x y : ℕ) (h : sigDigits (x * y) ≤ DECIMAL_PREC) :
    decMul x y = x * y := by
  rw [decMul, decRound, if_pos h]

/-! ### Claim C1 -/

/-- C1: for a `txlist` item with error flag unset whose sender is the
queried address (case-insensitively), exactly the value record followed by
the fee record is emitted; with the error flag set, only the fee record
(sender matching) or nothing (sender differing); the fee record pays the
all-f miner placeholder gasUsed*gasPrice/10^18; response items are
processed in response order. -/
theorem claim_c1 (base address m : String) (st : ExplorerState) (now : ℚ)
    (items : List TxItem) (item : TxItem) :
    ((get_normal_transactions base address st now
        (Transport.response ⟨1, m, items⟩)).1 =
      Except.ok (concatMap (normalRecordsForItem base address) items)) ∧
    (item.isError = 0 → lowerStr item.fromAddr = lowerStr address →
      normalRecordsForItem base address item =
        [{ tx_id := item.hash, time := item.timeStamp, fromAddr := item.fromAddr,
           toAddr := item.toAddr, currency := base,
           value := decDivPow10 item.value 18 },
         { tx_id := item.hash, time := item.timeStamp, fromAddr := item.fromAddr,
           toAddr := MINER, currency := base,
           value := decDivPow10 (decMul item.gasUsed item.gasPrice) 18 }]) ∧
    (item.isError ≠ 0 → lowerStr item.fromAddr = lowerStr address →
      normalRecordsForItem base address item =
        [{ tx_id := item.hash, time := item.timeStamp, fromAddr := item.fromAddr,
           toAddr := MINER, currency := base,
           value := decDivPow10 (decMul item.gasUsed item.gasPrice) 18 }]) ∧
    (item.isError ≠ 0 → lowerStr item.fromAddr ≠ lowerStr address →
      normalRecordsForItem base address item = []) ∧
    MINER = "0xffffffffffffffffffffffffffffffffffffffff" ∧
    (sigDigits item.value ≤ DECIMAL_PREC →
      decDivPow10 item.value 18 = (item.value : ℚ) / 10 ^ 18) ∧
    (sigDigits (item.gasUsed * item.gasPrice) ≤ DECIMAL_PREC →
      decDivPow10 (decMul item.gasUsed item.gasPrice) 18 =
        ((item.gasUsed : ℚ) * (item.gasPrice : ℚ)) / 10 ^ 18) := by
  refine ⟨rfl, ?_, ?_, ?_, rfl, ?_, ?_⟩
  · intro h1 h2
    simp [normalRecordsForItem, h1, h2]
  · intro h1 h2
    simp [normalRecordsForItem, h1, h2]
  · intro h1 h2
    simp [normalRecordsForItem, h1, h2]
  · intro h
    exact decDivPow10_exact item.value 18 h
  · intro h
    rw [decMul_exact item.gasUsed item.gasPrice h,
        decDivPow10_exact (item.gasUsed * item.gasPrice) 18 h, Nat.cast_mul]

theorem claim_c1_witness :
    normalRecordsForItem "ETH" "0xAB" exTxOk =
      [{ tx_id := "0xaaa", time := 1700000000, fromAddr := "0xAb",
         toAddr := "0xCd", currency := "ETH",
         value := decDivPow10 1500000000000000000 18 },
       { tx_id := "0xaaa", time := 1700000000, fromAddr := "0xAb",
         toAddr := MINER, currency := "ETH",
         value := decDivPow10 (decMul 21000 1000000000) 18 }] ∧
    normalRecordsForItem "ETH" "0xAB" exTxFailed =
      [{ tx_id := "0xbbb", time := 1700000000, fromAddr := "0xAb",
         toAddr := MINER, currency := "ETH",
         value := decDivPow10 (decMul 21000 1000000000) 18 }] ∧
    normalRecordsForItem "ETH" "0xAB" exTxOther = [] ∧
    decDivPow10 1500000000000000000 18 = 3 / 2 ∧
    decDivPow10 (decMul 21000 1000000000) 18 = 21 / 1000000 := by
  refine ⟨(claim_c1 "ETH" "0xAB" "" exState 0 [] exTxOk).2.1 (by decide) (by decide),
          (claim_c1 "ETH" "0xAB" "" exState 0 [] exTxFailed).2.2.1 (by decide) (by decide),
          (claim_c1 "ETH" "0xAB" "" exState 0 [] exTxOther).2.2.2.1 (by decide) (by decide),
          ?_, ?_⟩
  · rw [decDivPow10,
        show decRound 1500000000000000000 = 1500000000000000000 from by decide]
    norm_num
  · rw [show decMul 21000 1000000000 = 21000000000000 from by decide,
        decDivPow10, show decRound 21000000000000 = 21000000000000 from by decide]
    norm_num

/-! ### Claim C2 -/

/-- C2 counterexample: an item whose `tokenDecimal` key is absent makes
`get_erc20_transfers` raise (a `KeyError`), rather than being skipped
with zero records as the claim states. -/
theorem claim_c2_counterexample :
    (get_erc20_transfers "0xAb" exState 0
        (Transport.response ⟨1, "OK", [exTokenNoDec]⟩)).1 =
      Except.error "KeyError: tokenDecimal" ∧
    (get_erc20_transfers "0xAb" exState 0
        (Transport.response ⟨1, "OK", [exTokenNoDec]⟩)).1 ≠ Except.ok [] := by
  constructor
  · rfl
  · intro h
    cases h

/-- C2 amended: an item whose `tokenDecimal` is the empty string yields
zero records (skipped without error); an item whose `tokenDecimal` key is
absent raises a lookup error; every remaining item with numeric decimals
`d` yields exactly one record with currency = token symbol, value = raw
value / 10^d, and `contract` populated. -/
theorem claim_c2_amended (address m s : String) (d : ℕ) (st : ExplorerState)
    (now : ℚ) (items : List TokenTxItem) (item : TokenTxItem) :
    ((get_erc20_transfers address st now
        (Transport.response ⟨1, m, items⟩)).1 =
      concatMapE erc20RecordsForItem items) ∧
    (item.tokenDecimal = some "" → erc20RecordsForItem item = Except.ok []) ∧
    (item.tokenDecimal = none →
      erc20RecordsForItem item = Except.error "KeyError: tokenDecimal") ∧
    (item.tokenDecimal = some s → s ≠ "" → strToNat? s = some d →
      erc20RecordsForItem item =
        Except.ok [{ tx_id := item.hash, time := item.timeStamp,
                     fromAddr := item.fromAddr, toAddr := item.toAddr,
                     currency := item.tokenSymbol,
                     value := decDivPow10 item.value d,
                     contract := some item.contractAddress }]) ∧
    (sigDigits item.value ≤ DECIMAL_PREC →
      decDivPow10 item.value d = (item.value : ℚ) / 10 ^ d) := by
  refine ⟨rfl, ?_, ?_, ?_, ?_⟩
  · intro h
    simp [erc20RecordsForItem, h]
  · intro h
    simp [erc20RecordsForItem, h]
  · intro h hne hd
    simp [erc20RecordsForItem, h, hne, hd]
  · intro h
    exact decDivPow10_exact item.value d h

theorem claim_c2_witness :
    erc20RecordsForItem exTokenEmptyDec = Except.ok [] ∧
    erc20RecordsForItem exToken =
      Except.ok [{ tx_id := "0xddd", time := 1700000002, fromAddr := "0xAb",
                   toAddr := "0xCd", currency := "TOK",
                   value := decDivPow10 5000000 6,
                   contract := some "0xCo" }] ∧
    decDivPow10 5000000 6 = 5 := by
  refine ⟨(claim_c2_amended "0xAb" "" "6" 6 exState 0 [] exTokenEmptyDec).2.1 rfl,
          (claim_c2_amended "0xAb" "" "6" 6 exState 0 [] exToken).2.2.2.1
            rfl (by decide) (by decide), ?_⟩
  rw [decDivPow10, show decRound 5000000 = 5000000 from by decide]
  norm_num

end BeancountEthereum

namespace BeancountEthereum

/-! ### Claim C5 -/

/-- C5: a non-success provider status whose message is one of the known
empty-result phrases makes the fetch primitive return the result of the
response without raising; any other non-success status raises a runtime
failure carrying the message of the provider. -/
theorem claim_c5 {α : Type} (st : ExplorerState) (now : ℚ)
    (env : ApiEnvelope α) (h : env.status ≠ 1) :
    (env.message ∈ NO_TRANSACTIONS →
      (make_api_request st now (Transport.response env)).1 =
        Except.ok env.result) ∧
    (env.message ∉ NO_TRANSACTIONS →
      (make_api_request st now (Transport.response env)).1 =
        Except.error ("An error occurred: API Error: " ++ env.message)) := by
  constructor
  · intro hm
    have hc : env.status = 1 ∨ env.message ∈ NO_TRANSACTIONS := Or.inr hm
    simp only [make_api_request, apiResult, tryBody, if_pos hc]
    rfl
  · intro hm
    have hc : ¬(env.status = 1 ∨ env.message ∈ NO_TRANSACTIONS) := by
      rintro (h1 | h2)
      · exact h h1
      · exact hm h2
    simp only [make_api_request, apiResult, tryBody, if_neg hc]
    rfl

theorem claim_c5_witness :
    (make_api_request exState 5 (Transport.response
        (⟨0, "No transactions found", ([] : List TxItem)⟩ :
          ApiEnvelope (List TxItem)))).1 = Except.ok [] ∧
    (make_api_request exState 5 (Transport.response
        (⟨0, "boom", ([] : List TxItem)⟩ :
          ApiEnvelope (List TxItem)))).1 =
      Except.error "An error occurred: API Error: boom" := by
  constructor
  · have h := (claim_c5 exState 5
      (⟨0, "No transactions found", ([] : List TxItem)⟩ :
        ApiEnvelope (List TxItem)) (by decide)).1 (by decide)
    rw [h]
  · have h := (claim_c5 exState 5
      (⟨0, "boom", ([] : List TxItem)⟩ :
        ApiEnvelope (List TxItem)) (by decide)).2 (by decide)
    rw [h]
    rfl

/-! ### Claim C6 -/

/-- C6 counterexample: on a provider-reported error the fetch primitive
raises AND the last-request timestamp has nevertheless been updated
(line 49 runs before the status check on line 50), contradicting the
claim that every raising path leaves the timestamp unchanged. -/
theorem claim_c6_counterexample :
    exceptOk (make_api_request exState 100 (Transport.response
        (⟨0, "boom", ([] : List TxItem)⟩ :
          ApiEnvelope (List TxItem)))).1 = false ∧
    (make_api_request exState 100 (Transport.response
        (⟨0, "boom", ([] : List TxItem)⟩ :
          ApiEnvelope (List TxItem)))).2 ≠ exState ∧
    (make_api_request exState 100 (Transport.response
        (⟨0, "boom", ([] : List TxItem)⟩ :
          ApiEnvelope (List TxItem)))).2.lastRequestTimestamp = 100 := by
  refine ⟨rfl, ?_, rfl⟩
  have h2 : (make_api_request exState 100 (Transport.response
      (⟨0, "boom", ([] : List TxItem)⟩ :
        ApiEnvelope (List TxItem)))).2 = { lastRequestTimestamp := 100 } := rfl
  rw [h2, exState]
  simp only [ne_eq, ExplorerState.mk.injEq]
  norm_num

/-- C6 amended: the timestamp is left unchanged on transport-level or
body-parse failure, but it is updated (to the current time) for every
parsed response - also when the fetch primitive then raises because the
provider reported an error status. -/
theorem claim_c6_amended {α : Type} (st : ExplorerState) (now : ℚ)
    (m : String) (env : ApiEnvelope α) :
    (make_api_request st now (Transport.httpFailure m : Transport α)).2 = st ∧
    (make_api_request st now (Transport.bodyFailure m : Transport α)).2 = st ∧
    (make_api_request st now (Transport.response env)).2 =
      { lastRequestTimestamp := now } :=
  ⟨rfl, rfl, rfl⟩

/-! ### Claim C7 -/

/-- C7 counterexample: the single record produced by
`get_base_currency_balances` DOES carry the lowercased `address` field
(`some "0xabc"` here), contradicting the claim that it carries none. -/
theorem claim_c7_counterexample :
    (get_base_currency_balances "ETH" "0xAbC" exState 0 1700000000
        (Transport.response ⟨1, "OK", 1500000000000000000⟩)).1 =
      Except.ok [{ time := 1700000000, address := some "0xabc",
                   currency := "ETH", balance := 3 / 2 }] := by
  have h : (get_base_currency_balances "ETH" "0xAbC" exState 0 1700000000
      (Transport.response ⟨1, "OK", 1500000000000000000⟩)).1 =
      Except.ok [{ time := 1700000000, address := some (lowerStr "0xAbC"),
                   currency := "ETH",
                   balance := decDivPow10 1500000000000000000 18 }] := rfl
  rw [h, show lowerStr "0xAbC" = "0xabc" from by decide, decDivPow10,
      show decRound 1500000000000000000 = 1500000000000000000 from by decide]
  norm_num

/-- C7 amended: `get_base_currency_balances` emits exactly one record per
call, with the given wall-clock time, the native currency ticker,
balance = raw result / 10^18, and - like asset-balance records - the
lowercased queried address. -/
theorem claim_c7_amended (base address m : String) (st : ExplorerState)
    (now : ℚ) (wallClock : Int) (result : ℕ) :
    (get_base_currency_balances base address st now wallClock
        (Transport.response ⟨1, m, result⟩)).1 =
      Except.ok [{ time := wallClock, address := some (lowerStr address),
                   currency := base, balance := decDivPow10 result 18 }] :=
  rfl

/-! ### Claim C8 -/

/-- C8: `get_internal_transactions` emits exactly one record per
`txlistinternal` item, with no error-flag filtering, and the tx_id of the
record is the `hash` field of the item when present, else its
`transactionHash` field. -/
theorem claim_c8 (base address m : String) (st : ExplorerState) (now : ℚ)
    (items : List InternalTxItem) (item : InternalTxItem) (h : String) :
    ((get_internal_transactions base address st now
        (Transport.response ⟨1, m, items⟩)).1 =
      Except.ok (items.map (internalRecordForItem base))) ∧
    ((items.map (internalRecordForItem base)).length = items.length) ∧
    (item.hash = some h → (internalRecordForItem base item).tx_id = h) ∧
    (item.hash = none →
      (internalRecordForItem base item).tx_id = item.transactionHash) ∧
    (internalRecordForItem base item).time = item.timeStamp ∧
    (internalRecordForItem base item).fromAddr = item.fromAddr ∧
    (internalRecordForItem base item).toAddr = item.toAddr ∧
    (internalRecordForItem base item).currency = base ∧
    (internalRecordForItem base item).value = decDivPow10 item.value 18 := by
  refine ⟨rfl, by simp, ?_, ?_, rfl, rfl, rfl, rfl, rfl⟩
  · intro hh
    simp [internalRecordForItem, hh]
  · intro hh
    simp [internalRecordForItem, hh]

theorem claim_c8_witness :
    (internalRecordForItem "ETH" exInternalWithHash).tx_id = "0xh1" ∧
    (internalRecordForItem "ETH" exInternalNoHash).tx_id = "0xt1" :=
  ⟨(claim_c8 "ETH" "0xAb" "" exState 0 [] exInternalWithHash "0xh1").2.2.1 rfl,
   (claim_c8 "ETH" "0xAb" "" exState 0 [] exInternalNoHash "").2.2.2.1 rfl⟩

/-! ### Claim C9 -/

/-- C9 counterexample: with the default 28-significant-digit decimal
context, `Decimal(10^28 + 1) / 10^18` is rounded (half-even) and does not
equal the exact quotient, refuting exactness for every raw value. -/
theorem claim_c9_counterexample :
    decDivPow10 (10 ^ 28 + 1) 18 ≠ ((10 ^ 28 + 1 : ℕ) : ℚ) / 10 ^ 18 := by
  rw [decDivPow10, show decRound (10 ^ 28 + 1) = 10 ^ 28 from by decide]
  norm_num

/-- C9 amended: the emitted value equals V / 10^d exactly whenever V has
at most 28 significant digits (the default decimal context precision);
larger coefficients are rounded half-even, still in decimal - never
binary floating point.  V = 1500000000000000000 with d = 18 yields
exactly 1.5. -/
theorem claim_c9_amended (V d : ℕ) (h : sigDigits V ≤ DECIMAL_PREC) :
    decDivPow10 V d = (V : ℚ) / 10 ^ d ∧
    decDivPow10 1500000000000000000 18 = 3 / 2 := by
  refine ⟨decDivPow10_exact V d h, ?_⟩
  rw [decDivPow10,
      show decRound 1500000000000000000 = 1500000000000000000 from by decide]
  norm_num

theorem claim_c9_witness :
    sigDigits 1500000000000000000 ≤ DECIMAL_PREC ∧
    decDivPow10 1500000000000000000 18 =
      ((1500000000000000000 : ℕ) : ℚ) / 10 ^ 18 :=
  ⟨by decide, (claim_c9_amended 1500000000000000000 18 (by decide)).1⟩

/-! ### Claim C10 -/

/-- C10: a provider-reported application error is raised as a
`RuntimeError` inside the `try` block and re-caught by the same
generic handler of the same function, so the failure reaching the caller carries
the doubly wrapped message "An error occurred: API Error: ..." - not the
singly wrapped one - both in the block-explorer fetch primitive and in
the wallet client. -/
theorem claim_c10 {α : Type} (st : ExplorerState) (now : ℚ)
    (env : ApiEnvelope α) (address : String) (wenv : WalletEnvelope)
    (h1 : env.status ≠ 1) (h2 : env.message ∉ NO_TRANSACTIONS)
    (h3 : wenv.error = true) :
    ((tryBody (Transport.response env)).1 =
      Except.error (PyError.runtimeError ("API Error: " ++ env.message))) ∧
    ((make_api_request st now (Transport.response env)).1 =
      Except.error ("An error occurred: " ++ ("API Error: " ++ env.message))) ∧
    ("An error occurred: " ++ ("API Error: " ++ env.message) =
      "An error occurred: API Error: " ++ env.message) ∧
    ("An error occurred: API Error: " ++ env.message ≠
      "API Error: " ++ env.message) ∧
    (walletTryBody (WalletTransport.response wenv) =
      Except.error (PyError.runtimeError ("API Error: " ++ wenv.error_message))) ∧
    (get_asset_balances address (WalletTransport.response wenv) =
      Except.error ("An error occurred: " ++
        ("API Error: " ++ wenv.error_message))) := by
  have hc : ¬(env.status = 1 ∨ env.message ∈ NO_TRANSACTIONS) := by
    rintro (ha | hb)
    · exact h1 ha
    · exact h2 hb
  refine ⟨?_, ?_, rfl, ?_, ?_, ?_⟩
  · simp only [tryBody, if_neg hc]
  · simp only [make_api_request, apiResult, tryBody, if_neg hc]
    rfl
  · intro hEq
    have hlen := congrArg String.length hEq
    rw [String.length_append, String.length_append,
        show ("An error occurred: API Error: " : String).length = 30 from rfl,
        show ("API Error: " : String).length = 11 from rfl] at hlen
    omega
  · simp only [walletTryBody, h3, if_true]
  · simp only [get_asset_balances, walletTryBody, h3, if_true]
    rfl

theorem claim_c10_witness :
    (make_api_request exState 0 (Transport.response
        (⟨0, "boom", ([] : List TxItem)⟩ :
          ApiEnvelope (List TxItem)))).1 =
      Except.error "An error occurred: API Error: boom" ∧
    get_asset_balances "0xAb" (WalletTransport.response
        { error := true, error_message := "wboom",
          data := { updated_at := "", items := [] } }) =
      Except.error "An error occurred: API Error: wboom" := by
  have h := claim_c10 exState 0
    (⟨0, "boom", ([] : List TxItem)⟩ : ApiEnvelope (List TxItem)) "0xAb"
    { error := true, error_message := "wboom",
      data := { updated_at := "", items := [] } }
    (by decide) (by decide) rfl
  constructor
  · rw [h.2.1]
    rfl
  · rw [h.2.2.2.2.2]
    rfl

end BeancountEthereum

namespace BeancountEthereum

/-! ### Claim C3 -/

/-- The address loop succeeds exactly when the fetches of every address
succeed, for any accumulators. -/
theorem downloadLoop_ok_iff (base : String) (env : String → AddressEnv) :
    ∀ (as : List String) (txs : List TransactionRecord)
      (bals : List BalanceRecord),
      exceptOk (downloadLoop base env as txs bals) = true ↔
        ∀ a ∈ as, exceptOk (fetchAddress base a (env a)) = true := by
  intro as
  induction as with
  | nil =>
    intro txs bals
    simp [downloadLoop, exceptOk]
  | cons a rest ih =>
    intro txs bals
    cases hf : fetchAddress base a (env a) with
    | error e =>
      simp only [downloadLoop, hf, List.forall_mem_cons]
      simp [exceptOk]
    | ok p =>
      simp only [downloadLoop, hf, List.forall_mem_cons, ih]
      simp [exceptOk]

/-- C3: if the fetch of any single address fails, `download` propagates
the failure and writes neither output file; both output files are written
exactly when the fetches of every address succeed. -/
theorem claim_c3 (cfg : Config) (env : String → AddressEnv) :
    ((∃ a, a ∈ cfg.addresses ∧
        exceptOk (fetchAddress (cfg.base_currency.getD DEFAULT_CURRENCY) a
          (env a)) = false) →
      exceptOk (download cfg env).1 = false ∧ (download cfg env).2 = []) ∧
    ((∀ a ∈ cfg.addresses,
        exceptOk (fetchAddress (cfg.base_currency.getD DEFAULT_CURRENCY) a
          (env a)) = true) →
      (download cfg env).1 = Except.ok () ∧
      ∃ txs bals, (download cfg env).2 =
        [(cfg.name ++ ".json", FileContent.transactions txs),
         (cfg.name ++ "-balances.json", FileContent.balances bals)]) := by
  cases hl : downloadLoop (cfg.base_currency.getD DEFAULT_CURRENCY) env
      cfg.addresses [] [] with
  | error e =>
    constructor
    · intro _
      exact ⟨by simp [download, hl, exceptOk], by simp [download, hl]⟩
    · intro hall
      have hok := (downloadLoop_ok_iff (cfg.base_currency.getD DEFAULT_CURRENCY)
        env cfg.addresses [] []).2 hall
      rw [hl] at hok
      exact absurd hok (by simp [exceptOk])
  | ok p =>
    constructor
    · rintro ⟨a, ha, hfail⟩
      have hok : exceptOk (downloadLoop
          (cfg.base_currency.getD DEFAULT_CURRENCY) env cfg.addresses [] []) =
          true := by
        rw [hl]
        rfl
      have hall := (downloadLoop_ok_iff (cfg.base_currency.getD DEFAULT_CURRENCY)
        env cfg.addresses [] []).1 hok
      have hcontra := hall a ha
      rw [hfail] at hcontra
      cases hcontra
    · intro _
      exact ⟨by simp [download, hl], p.1, p.2, by simp [download, hl]⟩

set_option maxRecDepth 40000 in
theorem claim_c3_witness :
    (exceptOk (download exConfig (fun _ => exAddressEnvFail)).1 = false ∧
      (download exConfig (fun _ => exAddressEnvFail)).2 = []) ∧
    ((download exConfig (fun _ => exAddressEnvOk)).1 = Except.ok () ∧
      ∃ txs bals, (download exConfig (fun _ => exAddressEnvOk)).2 =
        [("test" ++ ".json", FileContent.transactions txs),
         ("test" ++ "-balances.json", FileContent.balances bals)]) :=
  ⟨(claim_c3 exConfig (fun _ => exAddressEnvFail)).1
      ⟨"0xAb", by decide, by decide⟩,
   (claim_c3 exConfig (fun _ => exAddressEnvOk)).2 (by decide)⟩

/-! ### Claim C4 -/

/-- C4: with the provider error flag unset and the truncated `updated_at`
parsing to timestamp `ts`, `get_asset_balances` emits exactly one record
per item with a positive numeric quote (null, zero, negative and
non-numeric quotes are excluded, a quote of 0.0001 is included), and
every record carries the shared timestamp `ts`, the lowercased queried
address, the ticker, the contract address, the balance scaled by
10^decimals, and the per-unit quote rate. -/
theorem claim_c4 (address : String) (env : WalletEnvelope) (ts : Int)
    (herr : env.error = false)
    (hts : parseUpdatedAt (env.data.updated_at.take 23) = some ts) :
    (get_asset_balances address (WalletTransport.response env) =
      Except.ok ((env.data.items.filter (fun i => validQuote i.quote)).map
        (assetRecord ts address))) ∧
    (∀ i : WalletItem, validQuote i.quote = true ↔
      ∃ q : ℚ, i.quote = JsonValue.num q ∧ 0 < q) ∧
    validQuote (JsonValue.num (1 / 10000)) = true ∧
    validQuote JsonValue.null = false ∧
    validQuote (JsonValue.num 0) = false ∧
    (∀ q : ℚ, q < 0 → validQuote (JsonValue.num q) = false) ∧
    (∀ s : String, validQuote (JsonValue.str s) = false) ∧
    (∀ i : WalletItem, assetRecord ts address i =
      { time := ts, address := some (lowerStr address),
        currency := i.contract_ticker_symbol,
        contract := some i.contract_address,
        balance := decDivPow10 i.balance i.contract_decimals,
        rate := some i.quote_rate }) := by
  refine ⟨?_, ?_, ?_, rfl, ?_, ?_, fun s => rfl, fun i => rfl⟩
  · simp only [get_asset_balances, walletTryBody, herr, Bool.false_eq_true,
      if_false, handleErrors, hts]
  · intro i
    cases hq : i.quote with
    | null => simp [validQuote]
    | num q => simp [validQuote, decide_eq_true_eq]
    | str s => simp [validQuote]
  · simp only [validQuote, decide_eq_true_eq]
    norm_num
  · simp [validQuote]
  · intro q hq
    simp only [validQuote, decide_eq_false_iff_not]
    exact fun hlt => absurd (hlt.trans hq) (lt_irrefl 0)

set_option maxRecDepth 40000 in
theorem claim_c4_witness :
    get_asset_balances "0xAbC" (WalletTransport.response exWalletEnv) =
      Except.ok [{ time := 1685622896, address := some "0xabc",
                   currency := "TOK", contract := some "0xCo",
                   balance := 5, rate := some (JsonValue.num 2) }] := by
  have h := (claim_c4 "0xAbC" exWalletEnv 1685622896 rfl (by decide)).1
  rw [h]
  norm_num [exWalletEnv, exWalletItemGood, exWalletItemNull, exWalletItemZero,
            exWalletItemStr, assetRecord, validQuote,
            show lowerStr "0xAbC" = "0xabc" from by decide,
            decDivPow10, show decRound 5000000 = 5000000 from by decide]

end BeancountEthereum
